import Mathlib

/-!
Verification of the `gmaps` Directions layer (`gmaps/directions.py`).

The layer is a data-validation and event-propagation widget: it validates
geographic inputs, normalizes the deprecated `data` constructor argument into
the canonical `start` / `end` / `waypoints` representation, computes a bounding
box for the route, and raises `DirectionsServiceException` when the
browser-side widget reports a failing `layer_status`.

Geographic coordinates are modelled as rationals (the Python code treats them
as opaque numbers; no float-specific behaviour is involved in any computation
here, which is all comparisons via `min` / `max` and list restructuring).
-/

/-- A (latitude, longitude) pair. -/
abbrev Point : Type := ℚ × ℚ

/-- Exceptions the Python code can raise while updating the widget state. -/
inductive PyException : Type where
  | valueError (msg : String)
  | traitError (msg : String)
  | indexError (msg : String)
  | directionsServiceException (msg : String)
deriving DecidableEq, Repr

/-- The trait state of a `Directions` widget: the route traits (`start`,
`end`, `waypoints`), the deprecated `data` trait, the derived `data_bounds`,
the request options forwarded to the browser widget, and the asynchronously
reported `layer_status`. -/
structure Directions : Type where
  start : Point
  «end» : Point
  waypoints : List Point
  data : Option (List Point)
  data_bounds : List Point
  avoid_ferries : Bool
  avoid_highways : Bool
  avoid_tolls : Bool
  optimize_waypoints : Bool
  travel_mode : String
  layer_status : String
deriving DecidableEq, Repr

/-- The route points `[self.start] + self.waypoints + [self.end]`, the
`all_data` list of `Directions._calc_bounds`. -/
def all_data (s : Directions) : List Point :=
  [s.start] ++ s.waypoints ++ [s.«end»]

/-- `Directions._calc_bounds`, the `@observe` handler that runs after every
change to the `start`, `end` or `waypoints` traits.  `all_data s` is the
nonempty list `s.start :: (s.waypoints ++ [s.end])`, so the Python builtins
`min` / `max` over the generator `row[0] for row in all_data` are the fold of
`min` / `max` over the tail, seeded with the component of the head. -/
def _calc_bounds (s : Directions) : Directions :=
  let rest := s.waypoints ++ [s.«end»]
  let min_latitude := (rest.map Prod.fst).foldl min s.start.1
  let min_longitude := (rest.map Prod.snd).foldl min s.start.2
  let max_latitude := (rest.map Prod.fst).foldl max s.start.1
  let max_longitude := (rest.map Prod.snd).foldl max s.start.2
  { s with data_bounds :=
      [(min_latitude, min_longitude), (max_latitude, max_longitude)] }

lemma calc_bounds_start (s : Directions) : (_calc_bounds s).start = s.start := rfl

lemma calc_bounds_end (s : Directions) : (_calc_bounds s).«end» = s.«end» := rfl

lemma calc_bounds_waypoints (s : Directions) :
    (_calc_bounds s).waypoints = s.waypoints := rfl

lemma calc_bounds_data_bounds (s : Directions) :
    (_calc_bounds s).data_bounds =
      [(((s.waypoints ++ [s.«end»]).map Prod.fst).foldl min s.start.1,
        ((s.waypoints ++ [s.«end»]).map Prod.snd).foldl min s.start.2),
       (((s.waypoints ++ [s.«end»]).map Prod.fst).foldl max s.start.1,
        ((s.waypoints ++ [s.«end»]).map Prod.snd).foldl max s.start.2)] := rfl

/- Facts about folding `min` / `max` over a list of rationals. -/

lemma foldl_min_le_init (l : List ℚ) (x : ℚ) : l.foldl min x ≤ x := by
  induction l generalizing x with
  | nil => exact le_refl x
  | cons a l ih => exact le_trans (ih (min x a)) (min_le_left x a)

lemma foldl_min_le_mem (l : List ℚ) (x y : ℚ) (hy : y ∈ l) : l.foldl min x ≤ y := by
  induction l generalizing x with
  | nil => cases hy
  | cons a l ih =>
    rcases List.mem_cons.mp hy with h | h
    · subst h
      exact le_trans (foldl_min_le_init l (min x y)) (min_le_right x y)
    · exact ih (min x a) h

lemma foldl_min_mem (l : List ℚ) (x : ℚ) : l.foldl min x = x ∨ l.foldl min x ∈ l := by
  induction l generalizing x with
  | nil => exact Or.inl rfl
  | cons a l ih =>
    rcases ih (min x a) with h | h
    · rcases min_choice x a with hxa | hxa
      · exact Or.inl (by rw [List.foldl_cons, h, hxa])
      · refine Or.inr ?_
        rw [List.foldl_cons, h, hxa]
        exact List.mem_cons_self a l
    · exact Or.inr (List.mem_cons_of_mem a h)

lemma init_le_foldl_max (l : List ℚ) (x : ℚ) : x ≤ l.foldl max x := by
  induction l generalizing x with
  | nil => exact le_refl x
  | cons a l ih => exact le_trans (le_max_left x a) (ih (max x a))

lemma mem_le_foldl_max (l : List ℚ) (x y : ℚ) (hy : y ∈ l) : y ≤ l.foldl max x := by
  induction l generalizing x with
  | nil => cases hy
  | cons a l ih =>
    rcases List.mem_cons.mp hy with h | h
    · subst h
      exact le_trans (le_max_right x y) (init_le_foldl_max l (max x y))
    · exact ih (max x a) h

lemma foldl_max_mem (l : List ℚ) (x : ℚ) : l.foldl max x = x ∨ l.foldl max x ∈ l := by
  induction l generalizing x with
  | nil => exact Or.inl rfl
  | cons a l ih =>
    rcases ih (max x a) with h | h
    · rcases max_choice x a with hxa | hxa
      · exact Or.inl (by rw [List.foldl_cons, h, hxa])
      · refine Or.inr ?_
        rw [List.foldl_cons, h, hxa]
        exact List.mem_cons_self a l
    · exact Or.inr (List.mem_cons_of_mem a h)

/-- `Directions._destructure_data`: `data[0]`, `data[-1]`, `data[1:-1]`.
Python raises `IndexError` on an empty list (`data[0]`); a singleton `[p]`
destructures to `(p, p, [])`. -/
def _destructure_data : List Point → Option (Point × Point × List Point)
  | [] => none
  | x :: xs => some (x, (x :: xs).getLast (List.cons_ne_nil x xs), xs.dropLast)

/-- Modelled from the spec: the validation performed by
`gmaps.geotraitlets.Point` (the `geotraitlets` module is not part of this
repository).  A geographic input is valid when its latitude lies in
[-90, 90] and its longitude in [-180, 180]. -/
def validPoint (p : Point) : Bool :=
  decide (-90 ≤ p.1) && decide (p.1 ≤ 90) && decide (-180 ≤ p.2) && decide (p.2 ≤ 180)

/-- `Directions._valid_waypoints`, the `@validate` hook of the `waypoints`
trait: a proposed `None` is normalized to the empty list (after a deprecation
warning); any other proposal passes through unchanged. -/
def _valid_waypoints : Option (List Point) → List Point
  | none => []
  | some w => w

/-- Modelled from the spec: assigning the `start` trait.  The
`geotraitlets.Point` validation (module not in this repository) rejects
invalid latitude/longitude pairs, so a failed assignment leaves the widget
state untouched; an accepted value is stored and the `_calc_bounds`
`@observe` handler recomputes `data_bounds`. -/
def set_start (s : Directions) (value : Point) : Except PyException Directions :=
  if validPoint value then Except.ok (_calc_bounds { s with start := value })
  else Except.error (PyException.traitError "invalid location")

/-- Modelled from the spec: assigning the `end` trait, analogous to
`set_start`. -/
def set_end (s : Directions) (value : Point) : Except PyException Directions :=
  if validPoint value then Except.ok (_calc_bounds { s with «end» := value })
  else Except.error (PyException.traitError "invalid location")

/-- Modelled from the spec: assigning the `waypoints` trait.  The
`_valid_waypoints` hook normalizes `None` to `[]`; the
`geotraitlets.LocationArray` validation (module not in this repository)
rejects any element with an out-of-range latitude or longitude; on success
the `_calc_bounds` observer recomputes `data_bounds`. -/
def set_waypoints (s : Directions) (value : Option (List Point)) :
    Except PyException Directions :=
  let value := _valid_waypoints value
  if value.all validPoint then Except.ok (_calc_bounds { s with waypoints := value })
  else Except.error (PyException.traitError "invalid location")

/-- `Directions._on_data_change`, the `@observe` handler of the `data` trait:
a non-`None` new value is destructured into `start`, `end` and `waypoints`
(assigned under `hold_trait_notifications`, after which the `_calc_bounds`
observer fires once); the new route traits pass through the `geotraitlets`
validation, modelled by `validPoint`. -/
def _on_data_change (s : Directions) (change_new : Option (List Point)) :
    Except PyException Directions :=
  match change_new with
  | none => Except.ok s
  | some data =>
    match _destructure_data data with
    | none => Except.error (PyException.indexError "list index out of range")
    | some (start, «end», waypoints) =>
      if validPoint start && validPoint «end» && waypoints.all validPoint then
        Except.ok (_calc_bounds
          { s with start := start, «end» := «end», waypoints := waypoints })
      else Except.error (PyException.traitError "invalid location")

/-- Assigning the `data` trait.  The trait is declared
`List(minlen=2, allow_none=True)`, so a non-`None` list shorter than 2 is
rejected by traitlets; an accepted assignment stores the value and fires
`_on_data_change`. -/
def set_data (s : Directions) (value : Option (List Point)) :
    Except PyException Directions :=
  match value with
  | none => _on_data_change { s with data := none } none
  | some l =>
    if 2 ≤ l.length then _on_data_change { s with data := some l } (some l)
    else Except.error (PyException.traitError "data must be of length at least 2")

/-- `Directions._handle_layer_status`, the `@observe` handler of the
`layer_status` trait: a new status different from `OK` raises
`DirectionsServiceException` with the offending status appended to the
message; the status `OK` raises nothing. -/
def _handle_layer_status (change_new : String) : Option PyException :=
  if change_new ≠ "OK" then
    some (PyException.directionsServiceException
      ("No directions returned: " ++ change_new))
  else none

/-- The keyword arguments `Directions.__init__` forwards in `**kwargs`: the
deprecated `data` plus the request options consumed by the widget superclass.
Python binds the keywords `start`, `end` and `waypoints` to the named
parameters of `__init__`, so the `kwargs` dict can never contain those keys. -/
structure InitKwargs : Type where
  data : Option (List Point)
  avoid_ferries : Bool
  avoid_highways : Bool
  avoid_tolls : Bool
  optimize_waypoints : Bool
  travel_mode : String
deriving DecidableEq, Repr

/-- The `ValueError` message of `Directions.__init__` (the source
concatenates two adjacent string literals, producing `"end"or`). -/
def cannot_set_msg : String :=
  "Cannot set both data and one of \"start\", \"end\"or \"waypoints\"."

/-- Modelled from the spec: `super().__init__(**kwargs)`
(`widgets.Widget.__init__`, not in this repository) assigns each keyword to
the matching trait, running the trait validation (`geotraitlets.Point` for
`start` and `end`; `_valid_waypoints` then `geotraitlets.LocationArray` for
`waypoints`) and then the `@observe` handlers, so `_calc_bounds` computes
`data_bounds` once the route traits are set.  A missing or invalid `start`
or `end` fails trait validation. -/
def super_init (start «end» : Option Point) (waypoints : Option (List Point))
    (kwargs : InitKwargs) : Except PyException Directions :=
  match start, «end» with
  | some s, some e =>
    let w := _valid_waypoints waypoints
    if validPoint s && validPoint e && w.all validPoint then
      Except.ok (_calc_bounds
        { start := s, «end» := e, waypoints := w, data := kwargs.data,
          data_bounds := [],
          avoid_ferries := kwargs.avoid_ferries,
          avoid_highways := kwargs.avoid_highways,
          avoid_tolls := kwargs.avoid_tolls,
          optimize_waypoints := kwargs.optimize_waypoints,
          travel_mode := kwargs.travel_mode,
          layer_status := "" })
    else Except.error (PyException.traitError "invalid location")
  | _, _ => Except.error (PyException.traitError "start and end must be set")

/-- `Directions.__init__`.  When `kwargs` holds a non-`None` `data`, the
line `waypoints = kwargs.get('waypoints')` rebinds the local `waypoints` to
the value of the key `waypoints` in the `kwargs` dict — and Python keyword
binding guarantees that key is never present, so the local becomes `None`
regardless of the `waypoints` argument; the guard then only checks `start`
and `end`.  Without `data`, a `None` `waypoints` is replaced by the empty
list (after a deprecation warning). -/
def Directions_init (start «end» : Option Point) (waypoints : Option (List Point))
    (kwargs : InitKwargs) : Except PyException Directions :=
  match kwargs.data with
  | some data =>
    let waypoints : Option (List Point) := none
    if start.isNone && «end».isNone && waypoints.isNone then
      match _destructure_data data with
      | some (s, e, w) =>
        super_init (some s) (some e) (some w) { kwargs with data := none }
      | none => Except.error (PyException.indexError "list index out of range")
    else
      Except.error (PyException.valueError cannot_set_msg)
  | none =>
    let waypoints : Option (List Point) :=
      match waypoints with
      | none => some []
      | some w => some w
    super_init start «end» waypoints kwargs

/-- The fold step of the reference single-pass bounding-box computation:
extend the running ((min lat, min lon), (max lat, max lon)) with one point. -/
def bounds_step (acc : Point × Point) (p : Point) : Point × Point :=
  ((min acc.1.1 p.1, min acc.1.2 p.2), (max acc.2.1 p.1, max acc.2.2 p.2))

/-- Modelled from the spec: the reference bounding-box computation, a single
traversal of the route points accumulating the four extrema in one pass,
seeded with the first point. -/
def bounds_one_pass (first : Point) (rest : List Point) : Point × Point :=
  rest.foldl bounds_step ((first.1, first.2), (first.1, first.2))

lemma foldl_bounds_step (l : List Point) (a b c d : ℚ) :
    l.foldl bounds_step ((a, b), (c, d)) =
      (((l.map Prod.fst).foldl min a, (l.map Prod.snd).foldl min b),
       ((l.map Prod.fst).foldl max c, (l.map Prod.snd).foldl max d)) := by
  induction l generalizing a b c d with
  | nil => rfl
  | cons p l ih =>
    simp only [List.foldl_cons, List.map_cons, bounds_step]
    exact ih (min a p.1) (min b p.2) (max c p.1) (max d p.2)

lemma destructure_cons (x : Point) (xs : List Point) (hxs : xs ≠ []) :
    _destructure_data (x :: xs) = some (x, xs.getLast hxs, xs.dropLast) := by
  simp only [_destructure_data, List.getLast_cons hxs]

lemma valid_parts (x : Point) (xs : List Point) (hxs : xs ≠ [])
    (hvalid : (x :: xs).all validPoint = true) :
    validPoint x = true ∧ validPoint (xs.getLast hxs) = true ∧
      xs.dropLast.all validPoint = true := by
  simp only [List.all_cons, Bool.and_eq_true] at hvalid
  obtain ⟨hx, hrest⟩ := hvalid
  refine ⟨hx, ?_, ?_⟩
  · exact List.all_eq_true.mp hrest _ (List.getLast_mem hxs)
  · exact List.all_eq_true.mpr fun p hp =>
      List.all_eq_true.mp hrest _ ((List.dropLast_sublist xs).subset hp)

lemma calc_bounds_wf (s : Directions) :
    ∃ lo hi, (_calc_bounds s).data_bounds = [lo, hi] ∧ lo.1 ≤ hi.1 ∧ lo.2 ≤ hi.2 := by
  refine ⟨_, _, calc_bounds_data_bounds s, ?_, ?_⟩
  · exact le_trans (foldl_min_le_init _ _) (init_le_foldl_max _ _)
  · exact le_trans (foldl_min_le_init _ _) (init_le_foldl_max _ _)

/-- A concrete widget state used to instantiate the theorems below. -/
def exState : Directions :=
  { start := (1, 2), «end» := (3, 4), waypoints := [], data := none,
    data_bounds := [(1, 2), (3, 4)], avoid_ferries := false,
    avoid_highways := false, avoid_tolls := false, optimize_waypoints := false,
    travel_mode := "DRIVING", layer_status := "OK" }

/-- The state reached from `exState` by assigning `start := (10, 20)`. -/
def exStart10 : Directions := _calc_bounds { exState with start := (10, 20) }

/-- A concrete legacy `data` list of three points. -/
def exData : List Point := [(1, 2), (3, 4), (5, 6)]

/-- C1: after any change to the `start`, `end` or `waypoints` traits (the
`_calc_bounds` observer), `data_bounds` is the minimal axis-aligned
latitude/longitude rectangle containing all points of
`[start] + waypoints + [end]`: its first element is the pair of minima, its
second the pair of maxima, every route point lies within the rectangle, and
each of the four extrema is attained by some route point. -/
theorem c1_data_bounds_minimal (s : Directions) :
    ∃ lo hi, (_calc_bounds s).data_bounds = [lo, hi] ∧
      (∀ p ∈ all_data s, lo.1 ≤ p.1 ∧ lo.2 ≤ p.2 ∧ p.1 ≤ hi.1 ∧ p.2 ≤ hi.2) ∧
      (∃ p ∈ all_data s, p.1 = lo.1) ∧ (∃ p ∈ all_data s, p.2 = lo.2) ∧
      (∃ p ∈ all_data s, p.1 = hi.1) ∧ (∃ p ∈ all_data s, p.2 = hi.2) := by
  have hmem : ∀ p ∈ all_data s, p = s.start ∨ p ∈ s.waypoints ++ [s.«end»] := by
    intro p hp
    exact List.mem_cons.mp hp
  refine ⟨_, _, calc_bounds_data_bounds s, ?_, ?_, ?_, ?_, ?_⟩
  · intro p hp
    rcases hmem p hp with h | h
    · subst h
      exact ⟨foldl_min_le_init _ _, foldl_min_le_init _ _,
        init_le_foldl_max _ _, init_le_foldl_max _ _⟩
    · exact ⟨foldl_min_le_mem _ _ _ (List.mem_map.mpr ⟨p, h, rfl⟩),
        foldl_min_le_mem _ _ _ (List.mem_map.mpr ⟨p, h, rfl⟩),
        mem_le_foldl_max _ _ _ (List.mem_map.mpr ⟨p, h, rfl⟩),
        mem_le_foldl_max _ _ _ (List.mem_map.mpr ⟨p, h, rfl⟩)⟩
  · rcases foldl_min_mem ((s.waypoints ++ [s.«end»]).map Prod.fst) s.start.1 with h | h
    · exact ⟨s.start, List.mem_cons_self _ _, h.symm⟩
    · obtain ⟨p, hp, hpe⟩ := List.mem_map.mp h
      exact ⟨p, List.mem_cons_of_mem _ hp, hpe⟩
  · rcases foldl_min_mem ((s.waypoints ++ [s.«end»]).map Prod.snd) s.start.2 with h | h
    · exact ⟨s.start, List.mem_cons_self _ _, h.symm⟩
    · obtain ⟨p, hp, hpe⟩ := List.mem_map.mp h
      exact ⟨p, List.mem_cons_of_mem _ hp, hpe⟩
  · rcases foldl_max_mem ((s.waypoints ++ [s.«end»]).map Prod.fst) s.start.1 with h | h
    · exact ⟨s.start, List.mem_cons_self _ _, h.symm⟩
    · obtain ⟨p, hp, hpe⟩ := List.mem_map.mp h
      exact ⟨p, List.mem_cons_of_mem _ hp, hpe⟩
  · rcases foldl_max_mem ((s.waypoints ++ [s.«end»]).map Prod.snd) s.start.2 with h | h
    · exact ⟨s.start, List.mem_cons_self _ _, h.symm⟩
    · obtain ⟨p, hp, hpe⟩ := List.mem_map.mp h
      exact ⟨p, List.mem_cons_of_mem _ hp, hpe⟩

/-- C1, instantiated at the concrete state `exState`. -/
theorem c1_data_bounds_minimal_witness :
    ∃ lo hi, (_calc_bounds exState).data_bounds = [lo, hi] ∧
      (∀ p ∈ all_data exState, lo.1 ≤ p.1 ∧ lo.2 ≤ p.2 ∧ p.1 ≤ hi.1 ∧ p.2 ≤ hi.2) ∧
      (∃ p ∈ all_data exState, p.1 = lo.1) ∧ (∃ p ∈ all_data exState, p.2 = lo.2) ∧
      (∃ p ∈ all_data exState, p.1 = hi.1) ∧ (∃ p ∈ all_data exState, p.2 = hi.2) :=
  c1_data_bounds_minimal exState

/-- C3: when the `layer_status` trait changes to a value other than `OK`, a
`DirectionsServiceException` is raised whose message is
`No directions returned: ` followed by the new status; when it changes to
`OK`, nothing is raised. -/
theorem c3_layer_status (status : String) :
    (status ≠ "OK" → _handle_layer_status status =
      some (PyException.directionsServiceException
        ("No directions returned: " ++ status))) ∧
    (status = "OK" → _handle_layer_status status = none) := by
  constructor
  · intro h
    simp [_handle_layer_status, h]
  · intro h
    simp [_handle_layer_status, h]

/-- C3, instantiated at the statuses `ZERO_RESULTS` and `OK`. -/
theorem c3_layer_status_witness :
    _handle_layer_status "ZERO_RESULTS" =
      some (PyException.directionsServiceException
        ("No directions returned: " ++ "ZERO_RESULTS")) ∧
    _handle_layer_status "OK" = none :=
  ⟨(c3_layer_status "ZERO_RESULTS").1 (by decide), (c3_layer_status "OK").2 rfl⟩

/-- C4: for a list of length at least 2, recombining the destructured legacy
`data` as `[start] + waypoints + [end]` restores the original list. -/
theorem c4_destructure_roundtrip (data : List Point) (start «end» : Point)
    (waypoints : List Point) (hlen : 2 ≤ data.length)
    (h : _destructure_data data = some (start, «end», waypoints)) :
    [start] ++ waypoints ++ [«end»] = data := by
  cases data with
  | nil => simp [_destructure_data] at h
  | cons x xs =>
    have hxs : xs ≠ [] := by
      cases xs with
      | nil => simp at hlen
      | cons b l => simp
    rw [destructure_cons x xs hxs] at h
    injection h with h
    injection h with h1 h
    injection h with h2 h3
    subst h1
    subst h2
    subst h3
    show x :: (xs.dropLast ++ [xs.getLast hxs]) = x :: xs
    rw [List.dropLast_append_getLast hxs]

/-- C4, instantiated at the three-point list `exData`. -/
theorem c4_destructure_roundtrip_witness :
    [((1 : ℚ), (2 : ℚ))] ++ [((3 : ℚ), (4 : ℚ))] ++ [((5 : ℚ), (6 : ℚ))] = exData :=
  c4_destructure_roundtrip exData (1, 2) (5, 6) [(3, 4)] (by decide) (by rfl)

/-- C7: the result of the implementation `_calc_bounds` coincides with the
reference single traversal `bounds_one_pass`, which accumulates the four
extrema in one pass over the route points. -/
theorem c7_bounds_single_pass (s : Directions) :
    (_calc_bounds s).data_bounds =
      [(bounds_one_pass s.start (s.waypoints ++ [s.«end»])).1,
       (bounds_one_pass s.start (s.waypoints ++ [s.«end»])).2] := by
  rw [calc_bounds_data_bounds, bounds_one_pass, foldl_bounds_step]

/-- C7, instantiated at the concrete state `exState`. -/
theorem c7_bounds_single_pass_witness :
    (_calc_bounds exState).data_bounds =
      [(bounds_one_pass exState.start (exState.waypoints ++ [exState.«end»])).1,
       (bounds_one_pass exState.start (exState.waypoints ++ [exState.«end»])).2] :=
  c7_bounds_single_pass exState

/-- C9: every successful assignment to `start`, `end` or `waypoints` leaves
`data_bounds` a two-element list whose first element is componentwise less
than or equal to its second. -/
theorem c9_bounds_invariant (s : Directions) :
    (∀ v st, set_start s v = Except.ok st →
      ∃ lo hi, st.data_bounds = [lo, hi] ∧ lo.1 ≤ hi.1 ∧ lo.2 ≤ hi.2) ∧
    (∀ v st, set_end s v = Except.ok st →
      ∃ lo hi, st.data_bounds = [lo, hi] ∧ lo.1 ≤ hi.1 ∧ lo.2 ≤ hi.2) ∧
    (∀ v st, set_waypoints s v = Except.ok st →
      ∃ lo hi, st.data_bounds = [lo, hi] ∧ lo.1 ≤ hi.1 ∧ lo.2 ≤ hi.2) := by
  refine ⟨?_, ?_, ?_⟩
  · intro v st h
    simp only [set_start] at h
    split at h
    · injection h with h
      subst h
      exact calc_bounds_wf _
    · exact Except.noConfusion h
  · intro v st h
    simp only [set_end] at h
    split at h
    · injection h with h
      subst h
      exact calc_bounds_wf _
    · exact Except.noConfusion h
  · intro v st h
    simp only [set_waypoints] at h
    split at h
    · injection h with h
      subst h
      exact calc_bounds_wf _
    · exact Except.noConfusion h

/-- C9, instantiated at the assignment `start := (10, 20)` on `exState`. -/
theorem c9_bounds_invariant_witness :
    ∃ lo hi, exStart10.data_bounds = [lo, hi] ∧ lo.1 ≤ hi.1 ∧ lo.2 ≤ hi.2 :=
  (c9_bounds_invariant exState).1 (10, 20) exStart10 (by rfl)

lemma super_init_ok (x e : Point) (w : List Point) (kwargs : InitKwargs)
    (hx : validPoint x = true) (he : validPoint e = true)
    (hw : w.all validPoint = true) :
    super_init (some x) (some e) (some w) kwargs =
      Except.ok (_calc_bounds
        { start := x, «end» := e, waypoints := w, data := kwargs.data,
          data_bounds := [], avoid_ferries := kwargs.avoid_ferries,
          avoid_highways := kwargs.avoid_highways,
          avoid_tolls := kwargs.avoid_tolls,
          optimize_waypoints := kwargs.optimize_waypoints,
          travel_mode := kwargs.travel_mode, layer_status := "" }) := by
  simp [super_init, _valid_waypoints, hx, he, hw]

lemma init_data_cons (x : Point) (xs : List Point) (hxs : xs ≠ [])
    (kwargs : InitKwargs) (hdata : kwargs.data = some (x :: xs))
    (hvalid : (x :: xs).all validPoint = true) :
    Directions_init none none none kwargs =
      Except.ok (_calc_bounds
        { start := x, «end» := xs.getLast hxs, waypoints := xs.dropLast,
          data := none, data_bounds := [],
          avoid_ferries := kwargs.avoid_ferries,
          avoid_highways := kwargs.avoid_highways,
          avoid_tolls := kwargs.avoid_tolls,
          optimize_waypoints := kwargs.optimize_waypoints,
          travel_mode := kwargs.travel_mode, layer_status := "" }) := by
  obtain ⟨hx, he, hw⟩ := valid_parts x xs hxs hvalid
  simp only [Directions_init, hdata, Option.isNone_none, Bool.and_self,
    if_true, destructure_cons x xs hxs]
  rw [super_init_ok _ _ _ _ hx he hw]

lemma set_data_cons (s : Directions) (x : Point) (xs : List Point)
    (hxs : xs ≠ []) (hvalid : (x :: xs).all validPoint = true)
    (hlen : 2 ≤ (x :: xs).length) :
    set_data s (some (x :: xs)) =
      Except.ok (_calc_bounds
        { s with
            data := some (x :: xs),
            start := x,
            «end» := xs.getLast hxs,
            waypoints := xs.dropLast }) := by
  obtain ⟨hx, he, hw⟩ := valid_parts x xs hxs hvalid
  simp only [set_data, if_pos hlen, _on_data_change, destructure_cons x xs hxs]
  simp [hx, he, hw]

lemma tail_ne_nil (x : Point) (xs : List Point) (hlen : 2 ≤ (x :: xs).length) :
    xs ≠ [] := by
  cases xs with
  | nil => simp at hlen
  | cons b l => simp

/-- C2: constructing `Directions` with only the deprecated `data` argument
normalizes it into the canonical representation: the resulting `start` is
`data[0]`, the `end` is `data[-1]`, and `waypoints` is `data[1:-1]` in the
original order; assigning the `data` trait after construction performs the
same normalization. -/
theorem c2_data_normalization (d : List Point) (kwargs : InitKwargs)
    (hlen : 2 ≤ d.length) (hdata : kwargs.data = some d)
    (hvalid : d.all validPoint = true) :
    (∀ st, Directions_init none none none kwargs = Except.ok st →
      some st.start = d.head? ∧ some st.«end» = d.getLast? ∧
      st.waypoints = (d.drop 1).dropLast) ∧
    (∃ st, Directions_init none none none kwargs = Except.ok st) ∧
    (∀ s st, set_data s (some d) = Except.ok st →
      some st.start = d.head? ∧ some st.«end» = d.getLast? ∧
      st.waypoints = (d.drop 1).dropLast) ∧
    (∀ s, ∃ st, set_data s (some d) = Except.ok st) := by
  cases d with
  | nil => simp at hlen
  | cons x xs =>
    have hxs : xs ≠ [] := tail_ne_nil x xs hlen
    have hhead : (x :: xs).head? = some x := rfl
    have hlast : (x :: xs).getLast? = some (xs.getLast hxs) := by
      rw [List.getLast?_eq_getLast_of_ne_nil (List.cons_ne_nil x xs),
        List.getLast_cons hxs]
    have hdrop : ((x :: xs).drop 1).dropLast = xs.dropLast := rfl
    refine ⟨?_, ?_, ?_, ?_⟩
    · intro st h
      rw [init_data_cons x xs hxs kwargs hdata hvalid] at h
      injection h with h
      subst h
      exact ⟨by rw [hhead, calc_bounds_start], by rw [hlast, calc_bounds_end],
        by rw [hdrop, calc_bounds_waypoints]⟩
    · exact ⟨_, init_data_cons x xs hxs kwargs hdata hvalid⟩
    · intro s st h
      rw [set_data_cons s x xs hxs hvalid hlen] at h
      injection h with h
      subst h
      exact ⟨by rw [hhead, calc_bounds_start], by rw [hlast, calc_bounds_end],
        by rw [hdrop, calc_bounds_waypoints]⟩
    · intro s
      exact ⟨_, set_data_cons s x xs hxs hvalid hlen⟩

/-- The keyword arguments of a plain construction (no deprecated `data`). -/
def exKwargs : InitKwargs :=
  { data := none, avoid_ferries := false, avoid_highways := false,
    avoid_tolls := false, optimize_waypoints := false,
    travel_mode := "DRIVING" }

/-- The keyword arguments of a legacy construction carrying `exData`. -/
def exKwData : InitKwargs := { exKwargs with data := some exData }

/-- The widget state produced by `Directions_init none none none exKwData`. -/
def exInitSt : Directions :=
  _calc_bounds
    { start := (1, 2), «end» := (5, 6), waypoints := [(3, 4)], data := none,
      data_bounds := [], avoid_ferries := false, avoid_highways := false,
      avoid_tolls := false, optimize_waypoints := false,
      travel_mode := "DRIVING", layer_status := "" }

/-- C2, instantiated at the legacy list `exData`. -/
theorem c2_data_normalization_witness :
    some exInitSt.start = exData.head? ∧
    some exInitSt.«end» = exData.getLast? ∧
    exInitSt.waypoints = (exData.drop 1).dropLast :=
  (c2_data_normalization exData exKwData (by decide) rfl (by decide)).1
    exInitSt (by rfl)

/-- C5: assignments to `start`, `end` or `waypoints` are validated: a pair
whose latitude lies outside [-90, 90] or longitude outside [-180, 180] is
rejected (the assignment returns the validation error, so the widget keeps
its previous state), and a successful assignment stores exactly the proposed
valid value. -/
theorem c5_geo_validation (s : Directions) (v : Point) :
    (validPoint v = true ↔
      (-90 ≤ v.1 ∧ v.1 ≤ 90 ∧ -180 ≤ v.2 ∧ v.2 ≤ 180)) ∧
    (validPoint v = false →
      set_start s v = Except.error (PyException.traitError "invalid location") ∧
      set_end s v = Except.error (PyException.traitError "invalid location")) ∧
    (∀ st, set_start s v = Except.ok st →
      validPoint st.start = true ∧ st.start = v) ∧
    (∀ st, set_end s v = Except.ok st →
      validPoint st.«end» = true ∧ st.«end» = v) ∧
    (∀ l st, set_waypoints s (some l) = Except.ok st →
      st.waypoints.all validPoint = true ∧ st.waypoints = l) := by
  refine ⟨?_, ?_, ?_, ?_, ?_⟩
  · simp [validPoint, and_assoc]
  · intro hv
    constructor
    · simp [set_start, hv]
    · simp [set_end, hv]
  · intro st h
    simp only [set_start] at h
    split at h
    · injection h with h
      subst h
      refine ⟨?_, rfl⟩
      simpa [calc_bounds_start] using ‹validPoint v = true›
    · exact Except.noConfusion h
  · intro st h
    simp only [set_end] at h
    split at h
    · injection h with h
      subst h
      refine ⟨?_, rfl⟩
      simpa [calc_bounds_end] using ‹validPoint v = true›
    · exact Except.noConfusion h
  · intro l st h
    simp only [set_waypoints, _valid_waypoints] at h
    split at h
    · injection h with h
      subst h
      refine ⟨?_, rfl⟩
      simpa [calc_bounds_waypoints] using ‹List.all l validPoint = true›
    · exact Except.noConfusion h

/-- C5, instantiated at a rejected latitude 91 and an accepted point. -/
theorem c5_geo_validation_witness :
    set_start exState ((91 : ℚ), (0 : ℚ)) =
      Except.error (PyException.traitError "invalid location") ∧
    exStart10.start = ((10 : ℚ), (20 : ℚ)) :=
  ⟨((c5_geo_validation exState (91, 0)).2.1 (by decide)).1,
   ((c5_geo_validation exState (10, 20)).2.2.1 exStart10 (by rfl)).2⟩

/-- C6: a successful assignment of a non-`None` value to the deprecated
`data` trait leaves `travel_mode`, `avoid_ferries`, `avoid_highways`,
`avoid_tolls` and `optimize_waypoints` unchanged (and also `layer_status`):
the forwarding `_on_data_change` only rewrites the route traits and the
derived `data_bounds`. -/
theorem c6_data_change_frame (s : Directions) (d : List Point)
    (st : Directions) (h : set_data s (some d) = Except.ok st) :
    st.travel_mode = s.travel_mode ∧ st.avoid_ferries = s.avoid_ferries ∧
    st.avoid_highways = s.avoid_highways ∧ st.avoid_tolls = s.avoid_tolls ∧
    st.optimize_waypoints = s.optimize_waypoints ∧
    st.layer_status = s.layer_status := by
  simp only [set_data] at h
  split at h
  · simp only [_on_data_change] at h
    split at h
    · exact Except.noConfusion h
    · split at h
      · injection h with h
        subst h
        exact ⟨rfl, rfl, rfl, rfl, rfl, rfl⟩
      · exact Except.noConfusion h
  · exact Except.noConfusion h

/-- The state reached from `exState` by assigning `data := exData`. -/
def exDataSt : Directions :=
  _calc_bounds
    { exState with
        data := some exData,
        start := (1, 2),
        «end» := (5, 6),
        waypoints := [(3, 4)] }

/-- C6, instantiated at the assignment `data := exData` on `exState`. -/
theorem c6_data_change_frame_witness :
    exDataSt.travel_mode = exState.travel_mode ∧
    exDataSt.avoid_ferries = exState.avoid_ferries ∧
    exDataSt.avoid_highways = exState.avoid_highways ∧
    exDataSt.avoid_tolls = exState.avoid_tolls ∧
    exDataSt.optimize_waypoints = exState.optimize_waypoints ∧
    exDataSt.layer_status = exState.layer_status :=
  c6_data_change_frame exState exData exDataSt (by rfl)

lemma init_data_ignores_waypoints (kwargs : InitKwargs) (d : List Point)
    (hdata : kwargs.data = some d) (start «end» : Option Point)
    (w1 w2 : Option (List Point)) :
    Directions_init start «end» w1 kwargs =
      Directions_init start «end» w2 kwargs := by
  simp only [Directions_init, hdata]

/-- C8: constructing with both the deprecated `data` and an explicit
`waypoints` argument does not hit the `ValueError` guard — the call behaves
exactly as if `waypoints` had been omitted, the supplied list being
discarded in favour of the destructured `data[1:-1]` (the guard reads
`kwargs`, which never contains the named `waypoints` parameter) — whereas
supplying `data` together with a non-`None` `start` or `end` raises
`ValueError` before any widget state is built. -/
theorem c8_waypoints_guard (kwargs : InitKwargs) (d : List Point)
    (hdata : kwargs.data = some d) :
    (∀ w, Directions_init none none (some w) kwargs =
      Directions_init none none none kwargs) ∧
    (∀ w st, Directions_init none none (some w) kwargs = Except.ok st →
      _destructure_data d = some (st.start, st.«end», st.waypoints)) ∧
    (∀ p, Directions_init (some p) none none kwargs =
      Except.error (PyException.valueError cannot_set_msg)) ∧
    (∀ p, Directions_init none (some p) none kwargs =
      Except.error (PyException.valueError cannot_set_msg)) := by
  refine ⟨?_, ?_, ?_, ?_⟩
  · intro w
    exact init_data_ignores_waypoints kwargs d hdata none none (some w) none
  · intro w st h
    simp only [Directions_init, hdata, Option.isNone_none, Bool.and_self,
      if_true] at h
    split at h
    · rename_i s e mid heq
      simp only [super_init] at h
      split at h
      · injection h with h
        subst h
        simpa [calc_bounds_start, calc_bounds_end, calc_bounds_waypoints]
          using heq
      · exact Except.noConfusion h
    · exact Except.noConfusion h
  · intro p
    simp [Directions_init, hdata]
  · intro p
    simp [Directions_init, hdata]

/-- C8, instantiated: `exData` plus an explicit waypoint list is accepted
and the waypoint list is replaced by `data[1:-1]`; `exData` plus a `start`
raises the `ValueError`. -/
theorem c8_waypoints_guard_witness :
    Directions_init none none (some [((7 : ℚ), (8 : ℚ))]) exKwData =
      Directions_init none none none exKwData ∧
    _destructure_data exData =
      some (exInitSt.start, exInitSt.«end», exInitSt.waypoints) ∧
    Directions_init (some ((0 : ℚ), (0 : ℚ))) none none exKwData =
      Except.error (PyException.valueError cannot_set_msg) :=
  ⟨(c8_waypoints_guard exKwData exData rfl).1 [(7, 8)],
   (c8_waypoints_guard exKwData exData rfl).2.1 [(7, 8)] exInitSt (by rfl),
   (c8_waypoints_guard exKwData exData rfl).2.2.1 (0, 0)⟩

/-- C10: with no deprecated `data`, constructing with `waypoints=None`
(equivalently, omitting the argument) produces exactly the same widget state
as passing the empty list, and assigning `None` to the `waypoints` trait is
the same assignment as the empty list: `None` is normalized to `[]`, so the
stored `waypoints` is never `None`. -/
theorem c10_none_waypoints (start «end» : Option Point) (kwargs : InitKwargs)
    (hdata : kwargs.data = none) (s : Directions) :
    Directions_init start «end» none kwargs =
      Directions_init start «end» (some []) kwargs ∧
    set_waypoints s none = set_waypoints s (some []) := by
  constructor
  · simp only [Directions_init, hdata]
  · rfl

/-- C10, instantiated at a plain construction and at `exState`. -/
theorem c10_none_waypoints_witness :
    Directions_init (some ((1 : ℚ), (2 : ℚ))) (some ((3 : ℚ), (4 : ℚ))) none
        exKwargs =
      Directions_init (some ((1 : ℚ), (2 : ℚ))) (some ((3 : ℚ), (4 : ℚ)))
        (some []) exKwargs ∧
    set_waypoints exState none = set_waypoints exState (some []) :=
  c10_none_waypoints (some (1, 2)) (some (3, 4)) exKwargs rfl exState
